import Mathlib

/-
Verification of `custom_components/eight_sleep_local/local_eight_sleep.py`
(class `LocalEightSleep`): a shallow embedding of the polling client and
its field-extraction properties, with theorems about the history buffer,
the error-absorption policy of `update_device_data`, the lifecycle
(`start` / `stop`), and the per-attribute resolver properties.

Modelling conventions:
- Python's dynamically typed JSON values become the inductive `JVal`;
  a Python `Dict[str, Any]` becomes `PyDict := List (String × JVal)`
  (first binding wins on lookup, matching dict key uniqueness).
- `dict.get(k, default)` becomes `dictGetD`; `dict.get(k)` (returning
  `None` when absent) becomes `dictGetD _ _ .null`.
- Calling `.get` on a non-dict value raises `AttributeError` in Python,
  so `JVal.get` / `JVal.getD` return `Except` with `attributeError`
  on non-`obj` values.
- Async methods that can raise return `Except PyExc _`; methods that
  cannot raise are total functions. State mutation becomes explicit
  state passing on the `LocalEightSleep` structure.
- The network is an oracle argument `FetchOutcome` describing what the
  single `session.get(url)` / `resp.json()` interaction did.
  Exception classification follows the libraries the code imports:
  `aiohttp.ContentTypeError` is a subclass of `aiohttp.ClientError`
  (so it is caught by the `except (ClientError, asyncio.TimeoutError,
  ConnectionRefusedError)` clause), while `json.JSONDecodeError` —
  raised by `resp.json()` when the body is not parseable JSON despite a
  JSON content type — is a subclass of `ValueError`, which is NOT in
  that tuple and therefore propagates to the caller.
- `stop` additionally returns a `Bool` recording whether it awaited
  `self._api_session.close()` (the release attempt); `__init__` via
  `init` returns a `Bool` recording whether construction performed the
  network fetch (`check_data` path). These flags only surface effects
  the Python code performs; they change no state.
-/

namespace EightSleepLocal

/-- A Python/JSON value as stored in the device status documents. -/
inductive JVal where
  | null
  | bool (b : Bool)
  | int (n : Int)
  | str (s : String)
  | obj (kvs : List (String × JVal))


/-- A Python `Dict[str, Any]`. -/
abbrev PyDict := List (String × JVal)

/-- Python `d.get(k, dflt)`: the value bound to `k`, or `dflt` if absent. -/
def dictGetD (d : PyDict) (k : String) (dflt : JVal) : JVal :=
  (d.lookup k).getD dflt

/-- Exceptions the embedded code can raise. -/
inductive PyExc where
  | assertionError (msg : String)
  | jsonDecodeError
  | attributeError


/-- Python `v.get(k)` on a dynamically typed value: `None` (here `.null`)
when the key is absent, `AttributeError` when `v` is not a dict. -/
def JVal.get : JVal → String → Except PyExc JVal
  | .obj kvs, k => .ok (dictGetD kvs k .null)
  | _, _ => .error .attributeError

/-- Python `v.get(k, dflt)` on a dynamically typed value. -/
def JVal.getD : JVal → String → JVal → Except PyExc JVal
  | .obj kvs, k, dflt => .ok (dictGetD kvs k dflt)
  | _, _, _ => .error .attributeError

/-- The exceptions raised by a failing `session.get` / response read and
caught by `except (ClientError, asyncio.TimeoutError,
ConnectionRefusedError)`: transport errors, timeouts, refused
connections. -/
inductive NetError where
  | clientError
  | timeoutError
  | connectionRefused


/-- What `await resp.json()` did for a received response. -/
inductive BodyResult where
  /-- The body parsed as JSON (its top level is a dict here, as in the
  device's status document). -/
  | ok (data : PyDict)
  /-- `aiohttp.ContentTypeError`: the response did not declare a JSON
  content type. Subclass of `ClientError`, hence caught. -/
  | contentTypeError
  /-- `json.JSONDecodeError`: JSON content type but unparseable body.
  Subclass of `ValueError`, hence NOT caught by the except clause. -/
  | decodeError


/-- The network oracle: what the single GET in `update_device_data` did. -/
inductive FetchOutcome where
  | netFail (e : NetError)
  | response (status : Nat) (body : BodyResult)


/-- The state of a `LocalEightSleep` instance. The session is `Option
Unit`: only its presence matters to the code's control flow. -/
structure LocalEightSleep where
  host : String
  port : Int
  api_session : Option Unit
  internal_session : Bool
  device_json_list : List PyDict


/-- `LocalEightSleep.__init__` state after the field assignments (before
the optional `check_data` fetch): session as supplied, `_internal_session
= False`, empty history. Python defaults are `host="localhost"`,
`port=8080`, `client_session=None`, `check_data=False`. -/
def mkClient (host : String) (port : Int) (client_session : Option Unit) :
    LocalEightSleep :=
  { host := host, port := port, api_session := client_session,
    internal_session := false, device_json_list := [] }

/-- `start()`: create a session if none is present and mark it as
internally owned; returns `True`. -/
def start (c : LocalEightSleep) : LocalEightSleep × Bool :=
  match c.api_session with
  | some _ => (c, true)
  | none =>
      ({ c with api_session := some (), internal_session := true }, true)

/-- `stop()`: close the session only if this instance created it and it
is still present; otherwise a logged no-op. The `Bool` records whether
`close()` was awaited (the release attempt). -/
def stop (c : LocalEightSleep) : LocalEightSleep × Bool :=
  if c.internal_session && c.api_session.isSome then
    ({ c with api_session := none }, true)
  else
    (c, false)

/-- `handle_device_json(data)`: `insert(0, data)` then slice `[:10]`. -/
def handle_device_json (c : LocalEightSleep) (data : PyDict) :
    LocalEightSleep :=
  { c with device_json_list := (data :: c.device_json_list).take 10 }

/-- `device_data` property: most recent stored response, `{}` if none. -/
def device_data (c : LocalEightSleep) : PyDict :=
  match c.device_json_list with
  | [] => []
  | d :: _ => d

/-- `device_data_history` property: the rolling list of responses. -/
def device_data_history (c : LocalEightSleep) : List PyDict :=
  c.device_json_list

/-- `update_device_data()`: assert a session exists, GET the status URL,
return on non-200, parse JSON, store via `handle_device_json`. The
`except` clause absorbs `ClientError` (including `ContentTypeError`),
`asyncio.TimeoutError` and `ConnectionRefusedError`; `json.JSONDecodeError`
is a `ValueError` and is not absorbed. -/
def update_device_data (c : LocalEightSleep) (out : FetchOutcome) :
    Except PyExc LocalEightSleep :=
  match c.api_session with
  | none =>
      .error (.assertionError "Session not initialized. Call `start()` first.")
  | some _ =>
      match out with
      | .netFail _ => .ok c
      | .response status body =>
          if status ≠ 200 then .ok c
          else
            match body with
            | .ok data => .ok (handle_device_json c data)
            | .contentTypeError => .ok c
            | .decodeError => .error .jsonDecodeError

/-- `__init__(host, port, client_session, check_data)`: assign fields;
when `check_data` is true, run `_init_data` (`start` then
`update_device_data`) synchronously. The `Bool` records whether a
network fetch happened during construction. -/
def init (host : String) (port : Int) (client_session : Option Unit)
    (check_data : Bool) (out : FetchOutcome) :
    Except PyExc (LocalEightSleep × Bool) :=
  let c := mkClient host port client_session
  if check_data then
    match update_device_data (start c).1 out with
    | .ok c2 => .ok (c2, true)
    | .error e => .error e
  else
    .ok (c, false)

/-- `is_priming` property: `device_data.get("isPriming", False)`. -/
def is_priming (c : LocalEightSleep) : JVal :=
  dictGetD (device_data c) "isPriming" (.bool false)

/-- `water_level` property: `device_data.get("waterLevel", "false")` —
the raw stored value, a string in the sample data; no boolean coercion. -/
def water_level (c : LocalEightSleep) : JVal :=
  dictGetD (device_data c) "waterLevel" (.str "false")

/-- `left_current_temp_f` property:
`device_data.get("left", {}).get("currentTemperatureF")`. -/
def left_current_temp_f (c : LocalEightSleep) : Except PyExc JVal :=
  JVal.get (dictGetD (device_data c) "left" (.obj [])) "currentTemperatureF"

/-- `left_target_temp_f` property. -/
def left_target_temp_f (c : LocalEightSleep) : Except PyExc JVal :=
  JVal.get (dictGetD (device_data c) "left" (.obj [])) "targetTemperatureF"

/-- `left_seconds_remaining` property. -/
def left_seconds_remaining (c : LocalEightSleep) : Except PyExc JVal :=
  JVal.get (dictGetD (device_data c) "left" (.obj [])) "secondsRemaining"

/-- `left_is_alarm_vibrating` property (default `False`). -/
def left_is_alarm_vibrating (c : LocalEightSleep) : Except PyExc JVal :=
  JVal.getD (dictGetD (device_data c) "left" (.obj [])) "isAlarmVibrating"
    (.bool false)

/-- `left_is_on` property (default `False`). -/
def left_is_on (c : LocalEightSleep) : Except PyExc JVal :=
  JVal.getD (dictGetD (device_data c) "left" (.obj [])) "isOn" (.bool false)

/-- `right_current_temp_f` property:
`device_data.get("right", {}).get("currentTemperatureF")`. -/
def right_current_temp_f (c : LocalEightSleep) : Except PyExc JVal :=
  JVal.get (dictGetD (device_data c) "right" (.obj [])) "currentTemperatureF"

/-- `right_target_temp_f` property. -/
def right_target_temp_f (c : LocalEightSleep) : Except PyExc JVal :=
  JVal.get (dictGetD (device_data c) "right" (.obj [])) "targetTemperatureF"

/-- `right_seconds_remaining` property. -/
def right_seconds_remaining (c : LocalEightSleep) : Except PyExc JVal :=
  JVal.get (dictGetD (device_data c) "right" (.obj [])) "secondsRemaining"

/-- `right_is_alarm_vibrating` property (default `False`). -/
def right_is_alarm_vibrating (c : LocalEightSleep) : Except PyExc JVal :=
  JVal.getD (dictGetD (device_data c) "right" (.obj [])) "isAlarmVibrating"
    (.bool false)

/-- `right_is_on` property (default `False`). -/
def right_is_on (c : LocalEightSleep) : Except PyExc JVal :=
  JVal.getD (dictGetD (device_data c) "right" (.obj [])) "isOn" (.bool false)

/-- `sensor_label` property: `device_data.get("sensorLabel", "")`. -/
def sensor_label (c : LocalEightSleep) : JVal :=
  dictGetD (device_data c) "sensorLabel" (.str "")

/-- `settings` property: `device_data.get("settings", {})`. -/
def settings (c : LocalEightSleep) : JVal :=
  dictGetD (device_data c) "settings" (.obj [])

/-- A client whose latest snapshot is `d`: one successful fetch recorded
on a fresh client, used to state resolver properties per snapshot. -/
def withData (d : PyDict) : LocalEightSleep :=
  handle_device_json (mkClient "localhost" 8080 none) d

/-- Run a sequence of successful fetches: each element of `ds` is the
parsed JSON body of one 200 response, delivered in order. -/
def runFetches (c : LocalEightSleep) (ds : List PyDict) :
    Except PyExc LocalEightSleep :=
  match ds with
  | [] => .ok c
  | d :: rest =>
      match update_device_data c (.response 200 (.ok d)) with
      | .ok c1 => runFetches c1 rest
      | .error e => .error e

/-- Outcomes absorbed by `update_device_data`'s failure policy: any
network-level failure, any non-200 response, and a content-type
mismatch on a 200 response. -/
def absorbedOutcome : FetchOutcome → Bool
  | .netFail _ => true
  | .response status body =>
      status != 200 ||
        (match body with
         | .contentTypeError => true
         | _ => false)

/-- Truncating to `n` before an append is absorbed by truncating the
append to `n`. -/
theorem take_append_take {α : Type} (a b : List α) (n : Nat) :
    (a ++ b.take n).take n = (a ++ b).take n := by
  rw [List.take_append_eq_append_take, List.take_append_eq_append_take,
    List.take_take, Nat.min_eq_left (Nat.sub_le n a.length)]

/-- A run of successful fetches on a client with a session and a history
within the cap succeeds and leaves history = (new snapshots, newest
first) ++ (old history), truncated to 10. -/
theorem runFetches_ok (ds : List PyDict) (c : LocalEightSleep) (u : Unit)
    (hs : c.api_session = some u)
    (hlen : c.device_json_list.length ≤ 10) :
    runFetches c ds =
      .ok { c with device_json_list :=
              (ds.reverse ++ c.device_json_list).take 10 } := by
  induction ds generalizing c with
  | nil =>
      simp [runFetches, List.take_of_length_le hlen]
  | cons d rest ih =>
      have hupd : update_device_data c (.response 200 (.ok d))
          = .ok (handle_device_json c d) := by
        simp [update_device_data, hs]
      have hses : (handle_device_json c d).api_session = some u := hs
      have hlen2 : (handle_device_json c d).device_json_list.length ≤ 10 := by
        simp [handle_device_json]
      rw [runFetches, hupd]
      show runFetches (handle_device_json c d) rest = _
      rw [ih (handle_device_json c d) hses hlen2]
      simp only [handle_device_json]
      congr 2
      rw [take_append_take, List.reverse_cons, List.append_assoc,
        List.singleton_append]

/-- C2: on a client whose history started empty, after N successful
fetches the history holds exactly min(N, 10) snapshots — it never
exceeds 10 entries, and the oldest entries are discarded once the cap
is exceeded (history is exactly the last 10 snapshots, newest first). -/
theorem fetches_history_min_ten (h : String) (p : Int) (ds : List PyDict) :
    ∃ c, runFetches (start (mkClient h p none)).1 ds = .ok c ∧
      (device_data_history c).length = min ds.length 10 ∧
      device_data_history c = ds.reverse.take 10 := by
  refine ⟨_, runFetches_ok ds (start (mkClient h p none)).1 () rfl
    (by simp [start, mkClient]), ?_, ?_⟩
  · simp [device_data_history, start, mkClient, List.length_take,
      Nat.min_comm]
  · simp [device_data_history, start, mkClient]

/-- C5: successful fetches producing snapshots S1, S2, S3 in that order
on an initially empty client leave history = [S3, S2, S1] — each fetch
prepends its snapshot, so the history is ordered newest first. -/
theorem fetches_newest_first (h : String) (p : Int) (S1 S2 S3 : PyDict) :
    ∃ c, runFetches (start (mkClient h p none)).1 [S1, S2, S3] = .ok c ∧
      device_data_history c = [S3, S2, S1] := by
  refine ⟨_, runFetches_ok _ _ () rfl (by simp [start, mkClient]), ?_⟩
  simp [device_data_history, start, mkClient]

/-- C1 (amended): with an active session, every absorbed failure
outcome — network-level failure, non-200 status, or a content-type
mismatch on the JSON read — leaves the client state (hence the history)
unchanged and returns normally; but a 200 response whose body fails to
parse as JSON raises `json.JSONDecodeError` to the caller (see the
counterexample), so "non-JSON body" is only absorbed in its
content-type-mismatch form. -/
theorem update_failure_absorbed (c : LocalEightSleep) (out : FetchOutcome)
    (hs : c.api_session.isSome = true)
    (habs : absorbedOutcome out = true) :
    update_device_data c out = .ok c := by
  cases hc : c.api_session with
  | none => rw [hc] at hs; exact absurd hs (by simp)
  | some u =>
      cases out with
      | netFail e => simp [update_device_data, hc]
      | response status body =>
          by_cases h200 : status = 200
          · subst h200
            cases body with
            | ok data => simp [absorbedOutcome] at habs
            | contentTypeError => simp [update_device_data, hc]
            | decodeError => simp [absorbedOutcome] at habs
          · simp [update_device_data, hc, h200]

/-- Witness for the C1 amended theorem: a 404 response on a started
client is absorbed and leaves the state unchanged. -/
theorem update_failure_absorbed_witness :
    ((start (mkClient "10.0.0.5" 8080 none)).1.api_session.isSome = true) ∧
    (absorbedOutcome (.response 404 (.ok [])) = true) ∧
    update_device_data (start (mkClient "10.0.0.5" 8080 none)).1
        (.response 404 (.ok []))
      = .ok (start (mkClient "10.0.0.5" 8080 none)).1 :=
  ⟨rfl, rfl, update_failure_absorbed _ _ rfl rfl⟩

/-- C1 counterexample: a 200 response with a JSON content type but an
unparseable body makes `update_device_data` raise `json.JSONDecodeError`
(a `ValueError`, absent from the `except` tuple) instead of returning
normally. -/
theorem update_decode_error_escapes :
    update_device_data (start (mkClient "10.0.0.5" 8080 none)).1
        (.response 200 .decodeError)
      = .error .jsonDecodeError := rfl

/-- C3 (amended): resolving an attribute whose side sub-mapping or JSON
key is absent returns the kind-appropriate default and never raises —
but the default for numeric attributes is Python `None` (here `.null`),
not 0: booleans default to `False`, strings to the empty string, while
plain `.get` for the numeric keys yields `None`. -/
theorem resolve_absent_defaults (d : PyDict) (kvs : List (String × JVal))
    (hside : (d.lookup "right").getD (.obj []) = JVal.obj kvs)
    (h1 : kvs.lookup "currentTemperatureF" = none)
    (h2 : kvs.lookup "isOn" = none)
    (h3 : d.lookup "sensorLabel" = none) :
    right_current_temp_f (withData d) = .ok JVal.null ∧
    right_is_on (withData d) = .ok (JVal.bool false) ∧
    sensor_label (withData d) = JVal.str "" := by
  have hdd : device_data (withData d) = d := rfl
  refine ⟨?_, ?_, ?_⟩
  · simp [right_current_temp_f, hdd, dictGetD, hside, JVal.get, h1]
  · simp [right_is_on, hdd, dictGetD, hside, JVal.getD, h2]
  · simp [sensor_label, hdd, dictGetD, h3]

/-- Witness for the C3 amended theorem on the empty snapshot. -/
theorem resolve_absent_defaults_witness :
    ((List.lookup "right" ([] : PyDict)).getD (.obj []) = JVal.obj []) ∧
    (List.lookup "currentTemperatureF" ([] : List (String × JVal)) = none) ∧
    (List.lookup "isOn" ([] : List (String × JVal)) = none) ∧
    (List.lookup "sensorLabel" ([] : PyDict) = none) ∧
    (right_current_temp_f (withData []) = .ok JVal.null ∧
     right_is_on (withData []) = .ok (JVal.bool false) ∧
     sensor_label (withData []) = JVal.str "") :=
  ⟨rfl, rfl, rfl, rfl, resolve_absent_defaults [] [] rfl rfl rfl rfl⟩

/-- C3 counterexample: resolving `current_temp_f` on the right side of a
snapshot missing that side yields `None` (null), not 0. -/
theorem right_temp_missing_not_zero :
    right_current_temp_f (withData []) = .ok JVal.null ∧
    right_current_temp_f (withData []) ≠ .ok (JVal.int 0) :=
  ⟨rfl, fun h => nomatch h⟩

/-- C4 (amended): the `water_level` attribute returns the raw
string-encoded `waterLevel` field unchanged (defaulting to the string
"false" when absent); no equality comparison against "true" and no
coercion to boolean is performed. -/
theorem water_level_raw (s : String) (d : PyDict) :
    water_level (withData (("waterLevel", JVal.str s) :: d)) = JVal.str s ∧
    water_level (withData []) = JVal.str "false" := by
  constructor
  · simp [water_level, withData, handle_device_json, mkClient, device_data,
      dictGetD, List.lookup]
  · rfl

/-- C4 counterexample: on snapshots with `waterLevel` "true" / "false",
`water_level` returns those strings, not the booleans the claim
states. -/
theorem water_level_string_not_bool :
    water_level (withData [("waterLevel", JVal.str "true")])
      = JVal.str "true" ∧
    water_level (withData [("waterLevel", JVal.str "true")])
      ≠ JVal.bool true ∧
    water_level (withData [("waterLevel", JVal.str "false")])
      = JVal.str "false" ∧
    water_level (withData [("waterLevel", JVal.str "false")])
      ≠ JVal.bool false := by
  refine ⟨rfl, ?_, rfl, ?_⟩
  · rw [show water_level (withData [("waterLevel", JVal.str "true")])
        = JVal.str "true" from rfl]
    exact fun hx => nomatch hx
  · rw [show water_level (withData [("waterLevel", JVal.str "false")])
        = JVal.str "false" from rfl]
    exact fun hx => nomatch hx

/-- C6: `device_data` returns the newest snapshot of the history when it
is non-empty and the empty mapping when it is empty; in particular a
freshly constructed, never-fetched client yields the empty mapping. It
is a total function, so it never fails. -/
theorem device_data_latest (c : LocalEightSleep) (h : String) (p : Int)
    (cs : Option Unit) :
    device_data c = (device_data_history c).headD [] ∧
    device_data (mkClient h p cs) = [] := by
  constructor
  · cases hl : c.device_json_list <;>
      simp [device_data, device_data_history, hl]
  · rfl

/-- C7: calling `update_device_data` on a client with no active session
fails the assertion immediately rather than returning silently. -/
theorem update_requires_session (c : LocalEightSleep) (out : FetchOutcome)
    (hs : c.api_session = none) :
    update_device_data c out
      = .error (.assertionError
          "Session not initialized. Call `start()` first.") := by
  simp [update_device_data, hs]

/-- Witness for C7: a freshly constructed client with no external
session fails the assertion on fetch. -/
theorem update_requires_session_witness :
    ((mkClient "10.0.0.5" 8080 none).api_session = none) ∧
    update_device_data (mkClient "10.0.0.5" 8080 none)
        (.netFail .timeoutError)
      = .error (.assertionError
          "Session not initialized. Call `start()` first.") :=
  ⟨rfl, update_requires_session _ _ rfl⟩

/-- C8: construction with default parameters (no external session,
`check_data = False`) performs no network fetch regardless of what the
network would have answered, and leaves the history empty with no
session held. -/
theorem init_default_no_fetch (h : String) (p : Int) (out : FetchOutcome) :
    init h p none false out = .ok (mkClient h p none, false) ∧
    device_data_history (mkClient h p none) = [] ∧
    (mkClient h p none).api_session = none :=
  ⟨rfl, rfl, rfl⟩

/-- C9: `stop` is idempotent and scoped — a second `stop` attempts no
release (`Bool` component false) and changes nothing, and on a client
that did not create its session `stop` is a pure no-op (never closes an
externally supplied resource). `stop` is a total function, so it never
raises. -/
theorem stop_scoped_idempotent (c : LocalEightSleep) :
    (stop (stop c).1).2 = false ∧
    (stop (stop c).1).1 = (stop c).1 ∧
    stop { c with internal_session := false }
      = ({ c with internal_session := false }, false) := by
  have h3 : stop { c with internal_session := false }
      = ({ c with internal_session := false }, false) := by
    simp [stop]
  by_cases hb : (c.internal_session && c.api_session.isSome) = true
  · have h1 : stop c = ({ c with api_session := none }, true) := by
      rw [stop, if_pos hb]
    have h2 : stop { c with api_session := none }
        = ({ c with api_session := none }, false) := by
      simp [stop]
    rw [h1]
    exact ⟨by rw [h2], by rw [h2], h3⟩
  · have h1 : stop c = (c, false) := by
      rw [stop, if_neg hb]
    rw [h1]
    exact ⟨by rw [h1], by rw [h1], h3⟩

/-- C10: on a client constructed with an externally supplied session,
`stop` leaves the session reference in place, so a subsequent fetch
still passes the active-session precondition and records its snapshot. -/
theorem external_session_survives_stop (h : String) (p : Int) (d : PyDict) :
    (stop (mkClient h p (some ()))).1 = mkClient h p (some ()) ∧
    (stop (mkClient h p (some ()))).1.api_session = some () ∧
    update_device_data (stop (mkClient h p (some ()))).1
        (.response 200 (.ok d))
      = .ok (handle_device_json (mkClient h p (some ())) d) :=
  ⟨rfl, rfl, rfl⟩

end EightSleepLocal
